import Mathlib

/-!
Verification of the UFL rule-impact analysis scripts
(`ufl_rule_analysis.py`, `banned_punt_analysis.py`, `dashboard.py`).

A `Play` is one row of the play-by-play table; numeric columns that hold
real values (`epa`, `wp`, `wpa`) are embedded as rationals, integer-valued
columns as `Int`.  Dataframe filters become `List.filter`, groupby/reindex
becomes a map over the fixed label list, and operations that can produce a
pandas `NaN` or raise a Python `ZeroDivisionError` return `Option`/`Except`
values (the doc comment of each such definition says which).
-/

/-- One row of the play-by-play table (the columns the analyses read). -/
structure Play where
  play_type : String := ""
  yardline_100 : Int := 0
  half_seconds_remaining : Int := 0
  down : Int := 0
  ydstogo : Int := 0
  score_differential : Int := 0
  epa : Rat := 0
  wp : Rat := 0
  wpa : Rat := 0
  fourth_down_converted : Int := 0
  kick_distance : Int := 0
  field_goal_result : String := ""
  posteam : String := ""
deriving DecidableEq

/-! Punt-rule predicates, from `ufl_rule_analysis.py` lines 20-32:
`punts = pbp[pbp["play_type"] == "punt"]`,
`punts_in_opp_territory = punts[punts["yardline_100"] < 50]`,
`IN_TWO_MIN_WINDOW = punts_in_opp_territory["half_seconds_remaining"] <= 120`,
`punts_exempt = punts_in_opp_territory[IN_TWO_MIN_WINDOW]`,
`punts_illegal = punts_in_opp_territory[~IN_TWO_MIN_WINDOW]`. -/

/-- Row is a punt: `pbp["play_type"] == "punt"`. -/
def is_punt (p : Play) : Bool := p.play_type == "punt"

/-- Punt from the opponent's half: `punts["yardline_100"] < 50`. -/
def in_opp_territory (p : Play) : Bool := decide (p.yardline_100 < 50)

/-- The mask `IN_TWO_MIN_WINDOW`: `half_seconds_remaining <= 120`. -/
def in_two_min_window (p : Play) : Bool := decide (p.half_seconds_remaining ≤ 120)

/-- Membership in `punts_exempt` (filter chain punt → opp territory → window). -/
def punt_exempt (p : Play) : Bool := is_punt p && in_opp_territory p && in_two_min_window p

/-- Membership in `punts_illegal` (filter chain punt → opp territory → not window). -/
def punt_illegal (p : Play) : Bool := is_punt p && in_opp_territory p && !(in_two_min_window p)

/-- A punt the rule does not apply to: in `punts` but not in `punts_in_opp_territory`. -/
def punt_not_applicable (p : Play) : Bool := is_punt p && !(in_opp_territory p)

/-- C1: for every play with `play_type = "punt"`, it is a candidate ban iff
`yardline_100 < 50`; a candidate is exempt iff `half_seconds_remaining ≤ 120`
and banned iff `half_seconds_remaining > 120`; and exactly one of
not-applicable, exempt, banned holds (their indicator sum is 1). -/
theorem punt_classification (p : Play) (hp : p.play_type = "punt") :
    (in_opp_territory p = true ↔ p.yardline_100 < 50) ∧
    (in_opp_territory p = true →
      ((punt_exempt p = true ↔ p.half_seconds_remaining ≤ 120) ∧
       (punt_illegal p = true ↔ 120 < p.half_seconds_remaining))) ∧
    (punt_not_applicable p).toNat + (punt_exempt p).toNat + (punt_illegal p).toNat = 1 := by
  simp only [is_punt, in_opp_territory, in_two_min_window, punt_exempt, punt_illegal,
    punt_not_applicable, hp]
  by_cases h1 : p.yardline_100 < 50 <;>
    by_cases h2 : p.half_seconds_remaining ≤ 120 <;>
      simp [h1, h2] <;> omega

/-- Witness for `punt_classification` at a concrete punt. -/
theorem punt_classification_witness :
    let p : Play := { play_type := "punt", yardline_100 := 45, half_seconds_remaining := 300 }
    (in_opp_territory p = true ↔ p.yardline_100 < 50) ∧
    (in_opp_territory p = true →
      ((punt_exempt p = true ↔ p.half_seconds_remaining ≤ 120) ∧
       (punt_illegal p = true ↔ 120 < p.half_seconds_remaining))) ∧
    (punt_not_applicable p).toNat + (punt_exempt p).toNat + (punt_illegal p).toNat = 1 :=
  punt_classification { play_type := "punt", yardline_100 := 45, half_seconds_remaining := 300 } rfl

/-! Field-goal rule, from `ufl_rule_analysis.py` lines 75-85 and
`dashboard.py` `compute_fgs` lines 141-154:
`fgs = pbp[pbp["play_type"] == "field_goal"]`,
`long_fgs = fgs[fgs["kick_distance"] >= 60]`,
`made_long_fgs = long_fgs[long_fgs["field_goal_result"] == "made"]`,
`extra_points = n_long_fg_made * 1`. -/

/-- Row is a field goal: `pbp["play_type"] == "field_goal"`. -/
def is_field_goal (p : Play) : Bool := p.play_type == "field_goal"

/-- Qualifies for the long-FG bonus: field goal with `kick_distance >= 60`. -/
def is_long_fg (p : Play) : Bool := is_field_goal p && decide (60 ≤ p.kick_distance)

/-- A qualifying make: long FG with `field_goal_result == "made"`. -/
def is_made_long_fg (p : Play) : Bool := is_long_fg p && p.field_goal_result == "made"

/-- Frame `long_fgs`: filter chain field goal → distance ≥ 60. -/
def long_fgs (pbp : List Play) : List Play :=
  (pbp.filter is_field_goal).filter (fun p => decide (60 ≤ p.kick_distance))

/-- Frame `made_long_fgs`: the long FGs whose result is `"made"`. -/
def made_long_fgs (pbp : List Play) : List Play :=
  (long_fgs pbp).filter (fun p => p.field_goal_result == "made")

/-- Count `extra_points = n_long_fg_made * 1`: +1 bonus point per made 60+ yard FG. -/
def extra_points (pbp : List Play) : Nat := (made_long_fgs pbp).length * 1

/-- Per-play bonus under the hypothetical rule: 1 for a qualifying make, else 0. -/
def bonus_points (p : Play) : Nat := if is_made_long_fg p then 1 else 0

theorem sum_map_bonus (pbp : List Play) :
    (pbp.map bonus_points).sum = pbp.countP is_made_long_fg := by
  induction pbp with
  | nil => rfl
  | cons a t ih =>
      by_cases h : is_made_long_fg a = true <;>
        simp [bonus_points, List.countP_cons, h, ih] <;> omega

/-- C2: the league-wide `extra_points` equals the number of plays that are made
60+ yard field goals, equals the sum of the per-play bonus (+1 per qualifying
make, 0 otherwise); a field goal qualifies iff `kick_distance ≥ 60` and a
non-make yields no bonus; a made 61-yard FG qualifies (bonus 1) and a made
58-yard FG does not (bonus 0). -/
theorem fg_bonus_spec (pbp : List Play) :
    extra_points pbp = pbp.countP is_made_long_fg ∧
    extra_points pbp = (pbp.map bonus_points).sum ∧
    (∀ p : Play, is_field_goal p = true →
      ((is_long_fg p = true ↔ 60 ≤ p.kick_distance) ∧
       (bonus_points p = 1 ↔ (is_long_fg p = true ∧ p.field_goal_result = "made")) ∧
       (p.field_goal_result ≠ "made" → bonus_points p = 0))) ∧
    (is_made_long_fg { play_type := "field_goal", kick_distance := 61,
                       field_goal_result := "made" } = true ∧
     bonus_points { play_type := "field_goal", kick_distance := 61,
                    field_goal_result := "made" } = 1) ∧
    (is_long_fg { play_type := "field_goal", kick_distance := 58,
                  field_goal_result := "made" } = false ∧
     bonus_points { play_type := "field_goal", kick_distance := 58,
                    field_goal_result := "made" } = 0) := by
  refine ⟨?_, ?_, ?_, by decide, by decide⟩
  · simp only [extra_points, made_long_fgs, long_fgs, Nat.mul_one,
      ← List.countP_eq_length_filter, List.countP_filter]
    refine List.countP_congr ?_
    intro p _
    simp only [is_made_long_fg, is_long_fg]
    cases is_field_goal p <;> cases hd : (decide (60 ≤ p.kick_distance)) <;>
      cases hm : (p.field_goal_result == "made") <;> simp [hd, hm]
  · rw [sum_map_bonus]
    simp only [extra_points, made_long_fgs, long_fgs, Nat.mul_one,
      ← List.countP_eq_length_filter, List.countP_filter]
    refine List.countP_congr ?_
    intro p _
    simp only [is_made_long_fg, is_long_fg]
    cases is_field_goal p <;> cases hd : (decide (60 ≤ p.kick_distance)) <;>
      cases hm : (p.field_goal_result == "made") <;> simp [hd, hm]
  · intro p hfg
    refine ⟨by simp [is_long_fg, hfg], ?_, ?_⟩
    · simp only [bonus_points, is_made_long_fg]
      by_cases hl : is_long_fg p = true <;>
        by_cases hm : p.field_goal_result = "made" <;> simp [hl, hm]
    · intro hm
      simp [bonus_points, is_made_long_fg, hm]

/-! Bucketing scheme, from `banned_punt_analysis.py` lines 47-48 and
`dashboard.py` lines 24-25:
`BUCKET_LABELS = ["0–1", "2–3", "4–5", "6–10", "11+"]`,
`BUCKET_BINS = [0, 1, 3, 5, 10, inf]`, applied with
`pd.cut(..., right=True, include_lowest=True)`, i.e. the intervals
`[0,1], (1,3], (3,5], (5,10], (10,inf]`; values below 0 fall in no bin
(`pd.cut` yields NaN there, embedded as `none`). -/

def BUCKET_LABELS : List String := ["0–1", "2–3", "4–5", "6–10", "11+"]

/-- Application of `pd.cut` to a `ydstogo` value over `BUCKET_BINS` with `right=True,
include_lowest=True`; `none` is the NaN produced for out-of-range values. -/
def bucket_of (y : Int) : Option String :=
  if y < 0 then none
  else if y ≤ 1 then some "0–1"
  else if y ≤ 3 then some "2–3"
  else if y ≤ 5 then some "4–5"
  else if y ≤ 10 then some "6–10"
  else some "11+"

/-- C3: the bucketing function is total on the nonnegative integers, always
produces one of the five declared labels, the five integer ranges
`≤1 / 2–3 / 4–5 / 6–10 / ≥11` are mutually exclusive and exhaustive
(indicator sum 1), and `bucket_of` realises exactly those boundaries. -/
theorem bucket_totality (y : Nat) :
    (bucket_of y).isSome = true ∧
    (∀ l, bucket_of y = some l → l ∈ BUCKET_LABELS) ∧
    ((decide (y ≤ 1)).toNat + (decide (2 ≤ y ∧ y ≤ 3)).toNat +
     (decide (4 ≤ y ∧ y ≤ 5)).toNat + (decide (6 ≤ y ∧ y ≤ 10)).toNat +
     (decide (11 ≤ y)).toNat = 1) ∧
    (y ≤ 1 ↔ bucket_of y = some "0–1") ∧
    ((2 ≤ y ∧ y ≤ 3) ↔ bucket_of y = some "2–3") ∧
    ((4 ≤ y ∧ y ≤ 5) ↔ bucket_of y = some "4–5") ∧
    ((6 ≤ y ∧ y ≤ 10) ↔ bucket_of y = some "6–10") ∧
    (11 ≤ y ↔ bucket_of y = some "11+") := by
  have h0 : ¬ ((y : Int) < 0) := by omega
  have e : ∀ (P : Prop) (inst : Decidable P), (@decide P inst).toNat = if P then 1 else 0 := by
    intro P inst
    by_cases h : P <;> simp [h]
  have hsum : (decide (y ≤ 1)).toNat + (decide (2 ≤ y ∧ y ≤ 3)).toNat +
      (decide (4 ≤ y ∧ y ≤ 5)).toNat + (decide (6 ≤ y ∧ y ≤ 10)).toNat +
      (decide (11 ≤ y)).toNat = 1 := by
    simp only [e]
    split_ifs <;> omega
  refine ⟨?_, ?_, hsum, ?_, ?_, ?_, ?_, ?_⟩ <;>
    · by_cases h1 : (y : Int) ≤ 1 <;> by_cases h2 : (y : Int) ≤ 3 <;>
        by_cases h3 : (y : Int) ≤ 5 <;> by_cases h4 : (y : Int) ≤ 10 <;>
          simp [bucket_of, h0, h1, h2, h3, h4, BUCKET_LABELS] <;> omega

/-! Counterfactual expected-value model, from `banned_punt_analysis.py`
lines 150-182 (`conversion_stats`) and `dashboard.py` lines 196-220
(`compute_epa_swing`): per bucket,
`conv_rate = mean(fourth_down_converted)`,
`exp_epa_go = conv_rate * epa_if_converted + (1 - conv_rate) * epa_if_failed`,
`epa_swing = exp_epa_go - avg_punt_epa`. -/

/-- Aggregate `go_attempts`: the `"count"` aggregate over the go-for-it plays. -/
def go_attempts (goPlays : List Play) : Nat := goPlays.length

/-- Aggregate `conversions`: the `"sum"` aggregate of the 0/1 column `fourth_down_converted`. -/
def conversions (goPlays : List Play) : Nat :=
  (goPlays.filter (fun p => p.fourth_down_converted == 1)).length

/-- Aggregate `conv_rate`: the `"mean"` aggregate of `fourth_down_converted`
 (sum of the 0/1 indicators divided by the count). -/
def conv_rate (goPlays : List Play) : Rat :=
  (goPlays.map (fun p => (p.fourth_down_converted : Rat))).sum / (goPlays.length : Rat)

/-- Formula `exp_epa_go = conv_rate * epa_if_converted + (1 - conv_rate) * epa_if_failed`. -/
def exp_epa_go (cr eic eif : Rat) : Rat := cr * eic + (1 - cr) * eif

/-- Formula `epa_swing = exp_epa_go - avg_punt_epa`. -/
def epa_swing (eg avg_punt_epa : Rat) : Rat := eg - avg_punt_epa

/-- A converted 4th-down go-for-it play. -/
def conv_play : Play := { play_type := "run", down := 4, fourth_down_converted := 1 }

/-- A failed 4th-down go-for-it play. -/
def fail_play : Play := { play_type := "run", down := 4, fourth_down_converted := 0 }

/-- A bucket population with 10 attempts and 6 conversions. -/
def go_plays_10 : List Play := List.replicate 6 conv_play ++ List.replicate 4 fail_play

/-- C4: on a bucket with 10 attempts of which 6 convert, the model yields
`conv_rate = 0.6`, and with `v_success = 1.2`, `v_fail = -1.5`,
`v_actual = -0.8` it computes `exp_epa_go = 0.12` and `epa_swing = 0.92`. -/
theorem epa_model_concrete :
    go_attempts go_plays_10 = 10 ∧
    conversions go_plays_10 = 6 ∧
    conv_rate go_plays_10 = 6 / 10 ∧
    exp_epa_go (conv_rate go_plays_10) (12 / 10) (-(15 / 10)) = 12 / 100 ∧
    epa_swing (exp_epa_go (conv_rate go_plays_10) (12 / 10) (-(15 / 10))) (-(8 / 10)) =
      92 / 100 := by
  refine ⟨by decide, by decide, ?_, ?_, ?_⟩ <;>
    norm_num [conv_rate, exp_epa_go, epa_swing, go_plays_10, conv_play, fail_play,
      List.replicate, List.sum_cons]

/-- C5: with `v_actual` fixed and `v_success > v_fail`, the expected value of
going for it is strictly increasing in the conversion rate, and hence so is
the swing. -/
theorem exp_epa_go_strict_mono (p₁ p₂ vs vf va : Rat) (hp : p₁ < p₂) (hv : vf < vs) :
    exp_epa_go p₁ vs vf < exp_epa_go p₂ vs vf ∧
    epa_swing (exp_epa_go p₁ vs vf) va < epa_swing (exp_epa_go p₂ vs vf) va := by
  have key : exp_epa_go p₁ vs vf < exp_epa_go p₂ vs vf := by
    simp only [exp_epa_go]
    nlinarith [mul_pos (sub_pos.mpr hp) (sub_pos.mpr hv)]
  exact ⟨key, by simpa [epa_swing] using key⟩

/-- Witness for `exp_epa_go_strict_mono` at conversion rates 0 < 1 and
values `v_success = 1 > v_fail = 0`, `v_actual = 0`. -/
theorem exp_epa_go_strict_mono_witness :
    exp_epa_go 0 1 0 < exp_epa_go 1 1 0 ∧
    epa_swing (exp_epa_go 0 1 0) 0 < epa_swing (exp_epa_go 1 1 0) 0 :=
  exp_epa_go_strict_mono 0 1 1 0 0 (by norm_num) (by norm_num)

/-! Dashboard punt classification, from `dashboard.py` `compute_punts`
lines 79-87: `punts_in_opp = punts[punts["yardline_100"] < 50]`; when
`exclude_2min` is set, `punts_exempt` are those with
`half_seconds_remaining <= 120` and `banned` those with `> 120`;
otherwise `punts_exempt` is empty and `banned` is all of `punts_in_opp`. -/

/-- Membership in the dashboard's `banned` frame for a given toggle state. -/
def banned_dash (exclude_2min : Bool) (p : Play) : Bool :=
  is_punt p && in_opp_territory p &&
    (if exclude_2min then decide (120 < p.half_seconds_remaining) else true)

/-- Membership in the dashboard's `punts_exempt` frame for a given toggle state
(the frame is empty when the toggle is off). -/
def exempt_dash (exclude_2min : Bool) (p : Play) : Bool :=
  if exclude_2min then
    is_punt p && in_opp_territory p && decide (p.half_seconds_remaining ≤ 120)
  else false

/-- The scenario punt at `yardline_100 = 45`, `half_seconds_remaining = 90`. -/
def punt_hsr_90 : Play :=
  { play_type := "punt", yardline_100 := 45, half_seconds_remaining := 90 }

/-- The scenario punt at `yardline_100 = 45`, `half_seconds_remaining = 100`. -/
def punt_hsr_100 : Play :=
  { play_type := "punt", yardline_100 := 45, half_seconds_remaining := 100 }

/-- C6 counterexample: the punt with `half_seconds_remaining = 90` is INSIDE
the 2-minute window (90 ≤ 120), so with the exemption enabled it is exempt and
not banned — contradicting the claim that it is outside the window and
classified banned. -/
theorem punt_two_min_counterexample :
    punt_hsr_90.half_seconds_remaining ≤ 120 ∧
    in_two_min_window punt_hsr_90 = true ∧
    exempt_dash true punt_hsr_90 = true ∧
    banned_dash true punt_hsr_90 = false := by decide

/-- C6 amended: the `hsr = 90` punt is in opponent territory but inside the
2-minute window, hence exempt when the exemption is enabled and banned when it
is disabled; the `hsr = 100` punt is likewise banned when the toggle is
disabled and exempt (not banned) when it is enabled — the toggle changes the
verdict only when enabled. -/
theorem punt_two_min_amended :
    in_opp_territory punt_hsr_90 = true ∧
    in_two_min_window punt_hsr_90 = true ∧
    exempt_dash true punt_hsr_90 = true ∧
    banned_dash true punt_hsr_90 = false ∧
    banned_dash false punt_hsr_90 = true ∧
    banned_dash false punt_hsr_100 = true ∧
    exempt_dash true punt_hsr_100 = true ∧
    banned_dash true punt_hsr_100 = false ∧
    exempt_dash false punt_hsr_100 = false := by decide

/-! Summary counts of `dashboard.py` `compute_punts`, lines 79-100. -/

/-- The `summary` dict computed by `compute_punts`. -/
structure PuntSummary where
  total_punts : Nat
  opp_territory : Nat
  exempt : Nat
  banned : Nat
  pct_banned : Rat
deriving DecidableEq

/-- Summary of `compute_punts`: filters `punts`, `punts_in_opp`, then the
toggle-dependent `punts_exempt` / `banned` split, and
`pct_banned = n_banned / n_total * 100 if n_total > 0 else 0.0`. -/
def compute_punts_summary (pbp : List Play) (exclude_2min : Bool) : PuntSummary :=
  let punts := pbp.filter is_punt
  let punts_in_opp := punts.filter in_opp_territory
  let punts_exempt :=
    if exclude_2min then punts_in_opp.filter in_two_min_window else []
  let banned :=
    if exclude_2min then punts_in_opp.filter (fun p => !(in_two_min_window p))
    else punts_in_opp
  { total_punts := punts.length
    opp_territory := punts_in_opp.length
    exempt := punts_exempt.length
    banned := banned.length
    pct_banned :=
      if punts.length > 0 then (banned.length : Rat) / (punts.length : Rat) * 100 else 0 }

/-- Frame `banned_punts` of `banned_punt_analysis.py` lines 21-23: punt, in the
opponent's half, outside the 2-minute window. -/
def banned_punts_of (pbp : List Play) : List Play :=
  ((pbp.filter is_punt).filter in_opp_territory).filter (fun p => !(in_two_min_window p))

/-- The distance-bracket percentage of `banned_punt_analysis.py` line 84:
`len(short) / n_banned * 100` where `short = banned_punts[ydstogo <= 2]`.
Python integer division by a zero `n_banned` raises `ZeroDivisionError`,
embedded as `none`. -/
def bracket_pct_short (banned_punts : List Play) : Option Rat :=
  let short := banned_punts.filter (fun p => decide (p.ydstogo ≤ 2))
  if banned_punts.length = 0 then none
  else some ((short.length : Rat) / (banned_punts.length : Rat) * 100)

/-- One entry of `bucket_pct = (bucket_counts / n_banned * 100).round(1)`
(`banned_punt_analysis.py` line 62): a pandas count divided by a zero
`n_banned` is NaN, embedded as `none`. -/
def bucket_pct (bucket_count n_banned : Nat) : Option Rat :=
  if n_banned = 0 then none
  else some ((bucket_count : Rat) / (n_banned : Rat) * 100)

/-- C7 counterexample: over an empty play table there are no banned punts, the
distance-bracket percentage raises a division fault (`none`) and the
bucket-distribution percentage is NaN (`none`) — not the defined default the
claim demands of every percentage computation over the banned-punt
population. -/
theorem empty_population_counterexample :
    banned_punts_of [] = [] ∧
    bracket_pct_short (banned_punts_of []) = none ∧
    bucket_pct 0 0 = none := by decide

/-- C7 amended: the dashboard's `compute_punts` is guarded — on a season with
zero punts the total count is 0 and `pct_banned` is the defined default 0
(no division fault); the unguarded bucket-distribution and distance-bracket
percentages of `banned_punt_analysis.py` are excluded. -/
theorem pct_banned_empty (pbp : List Play) (exclude_2min : Bool)
    (h : (pbp.filter is_punt).length = 0) :
    (compute_punts_summary pbp exclude_2min).total_punts = 0 ∧
    (compute_punts_summary pbp exclude_2min).pct_banned = 0 := by
  simp only [compute_punts_summary, h]
  simp

/-- Witness for `pct_banned_empty` on the empty play table. -/
theorem pct_banned_empty_witness :
    (([] : List Play).filter is_punt).length = 0 ∧
    (compute_punts_summary [] true).total_punts = 0 ∧
    (compute_punts_summary [] true).pct_banned = 0 :=
  ⟨rfl, pct_banned_empty [] true rfl⟩

theorem length_filter_add_length_filter_not {α : Type} (l : List α) (q : α → Bool) :
    (l.filter q).length + (l.filter (fun a => !(q a))).length = l.length := by
  induction l with
  | nil => rfl
  | cons a t ih =>
      cases h : q a <;> simp [List.filter_cons, h] <;> omega

/-- C10: for every input and either toggle state, the `compute_punts` summary
satisfies `exempt + banned = opp_territory` and `opp_territory ≤ total_punts`;
with the toggle off, `exempt = 0` and `banned = opp_territory`; and the toggle
never changes `total_punts` or `opp_territory`. -/
theorem compute_punts_invariants (pbp : List Play) (exclude_2min : Bool) :
    (compute_punts_summary pbp exclude_2min).exempt +
      (compute_punts_summary pbp exclude_2min).banned =
      (compute_punts_summary pbp exclude_2min).opp_territory ∧
    (compute_punts_summary pbp exclude_2min).opp_territory ≤
      (compute_punts_summary pbp exclude_2min).total_punts ∧
    (compute_punts_summary pbp false).exempt = 0 ∧
    (compute_punts_summary pbp false).banned =
      (compute_punts_summary pbp false).opp_territory ∧
    (compute_punts_summary pbp exclude_2min).total_punts =
      (compute_punts_summary pbp true).total_punts ∧
    (compute_punts_summary pbp exclude_2min).opp_territory =
      (compute_punts_summary pbp true).opp_territory := by
  refine ⟨?_, ?_, by simp [compute_punts_summary], by simp [compute_punts_summary],
    by simp [compute_punts_summary], by simp [compute_punts_summary]⟩
  · cases exclude_2min with
    | false => simp [compute_punts_summary]
    | true =>
        simp only [compute_punts_summary, if_pos]
        exact length_filter_add_length_filter_not _ in_two_min_window
  · simpa [compute_punts_summary] using
      List.length_filter_le in_opp_territory (pbp.filter is_punt)

/-! Score-situation grouping, from `banned_punt_analysis.py` lines 338-375 and
`dashboard.py` lines 56-60 and 117-130: `score_situation` labels each play,
`groupby("situation").agg(count, avg_ydstogo).reindex(SITUATION_ORDER)`
yields one row per declared label (missing groups become NaN rows), and the
console loop of `banned_punt_analysis.py` lines 372-375 skips any row whose
`count` is NaN (`if pd.isna(row["count"]): continue`). -/

def SITUATION_ORDER : List String :=
  ["Leading", "Tied", "Trailing (1 score)", "Trailing (2+ scores)"]

/-- Labelling function `score_situation(diff)` of the source. -/
def score_situation (diff : Int) : String :=
  if diff > 0 then "Leading"
  else if diff = 0 then "Tied"
  else if diff ≥ -8 then "Trailing (1 score)"
  else "Trailing (2+ scores)"

/-- One row of the reindexed `situation_stats` table; `none` fields are the
NaNs a reindex produces for a label with no observations. -/
structure SitRow where
  situation : String
  count : Option Nat
  avg_ydstogo : Option Rat
deriving DecidableEq

/-- The `situation_stats` row for one label: group count and mean `ydstogo`
when the group is non-empty, a NaN row otherwise. -/
def situation_row (banned : List Play) (s : String) : SitRow :=
  let grp := banned.filter (fun p => score_situation p.score_differential == s)
  if grp.length = 0 then { situation := s, count := none, avg_ydstogo := none }
  else
    { situation := s, count := some grp.length,
      avg_ydstogo := some ((grp.map (fun p => (p.ydstogo : Rat))).sum / (grp.length : Rat)) }

/-- Table `situation_stats`: `groupby("situation")` then `.reindex(SITUATION_ORDER)`
— one row per declared label, in declared order. -/
def situation_stats (banned : List Play) : List SitRow :=
  SITUATION_ORDER.map (situation_row banned)

/-- The console report of lines 372-375: rows whose `count` is NaN are
skipped. -/
def situation_report (banned : List Play) : List SitRow :=
  (situation_stats banned).filter (fun r => r.count.isSome)

theorem situation_row_label (banned : List Play) (s : String) :
    (situation_row banned s).situation = s := by
  by_cases h :
      (banned.filter (fun p => score_situation p.score_differential == s)).length = 0 <;>
    simp [situation_row, h]

/-- A banned punt from a tied game, for the C8 counterexample. -/
def tied_play : Play :=
  { play_type := "punt", yardline_100 := 40, half_seconds_remaining := 900,
    score_differential := 0, ydstogo := 5 }

/-- C8 counterexample: on a population whose only punt is from a tied game,
the printed situation report contains only the `"Tied"` row — the zero-count
categories (`"Leading"`, both trailing labels) are silently dropped from the
reported table, contradicting the claim. -/
theorem situation_report_counterexample :
    (situation_report [tied_play]).map (fun r => r.situation) = ["Tied"] ∧
    "Leading" ∈ SITUATION_ORDER ∧
    "Leading" ∉ (situation_report [tied_play]).map (fun r => r.situation) := by decide

/-- C8 amended: the reindexed `situation_stats` table always lists exactly the
declared categories in the fixed declared order, and a category has a `none`
(NaN) count precisely when it has zero observations — but the console report
of `banned_punt_analysis.py` skips those NaN rows, so zero-count categories
are dropped from that printed table. -/
theorem situation_stats_fixed_order (banned : List Play) :
    (situation_stats banned).map (fun r => r.situation) = SITUATION_ORDER ∧
    (∀ r ∈ situation_stats banned,
      (r.count = none ↔
        (banned.filter
          (fun p => score_situation p.score_differential == r.situation)).length = 0)) ∧
    situation_report banned =
      (situation_stats banned).filter (fun r => r.count.isSome) := by
  refine ⟨?_, ?_, rfl⟩
  · unfold situation_stats
    rw [List.map_map]
    conv_rhs => rw [← List.map_id SITUATION_ORDER]
    exact List.map_congr_left (fun s _ => situation_row_label banned s)
  · intro r hr
    simp only [situation_stats, List.mem_map] at hr
    obtain ⟨s, _, rfl⟩ := hr
    rw [situation_row_label]
    by_cases h :
        (banned.filter (fun p => score_situation p.score_differential == s)).length = 0 <;>
      simp [situation_row, h]

/-! Schema checking, from `dashboard.py` lines 28-53 and 570-579.
`_check_cols` computes `missing = required - set(df.columns)` and, when
non-empty, shows an error naming `sorted(missing)` for the section `label`
and calls `st.stop()`, which halts the whole script run; the four compute
functions are invoked sequentially inside one `try` block, so the first
schema error ends the run before any later section is computed.  Embedded
as an `Except` pipeline whose error value is the `(label, sorted missing)`
pair. -/

def REQUIRED_PUNT_COLS : List String :=
  ["play_type", "yardline_100", "half_seconds_remaining",
   "posteam", "ydstogo", "score_differential", "epa", "wp", "wpa", "down"]

def REQUIRED_FG_COLS : List String :=
  ["play_type", "kick_distance", "field_goal_result", "posteam"]

def REQUIRED_EPA_COLS : List String :=
  ["play_type", "down", "ydstogo", "epa", "fourth_down_converted",
   "yardline_100", "half_seconds_remaining"]

def REQUIRED_SNEAK_COLS : List String :=
  ["rush_attempt", "pass_attempt", "rusher_player_id", "passer_player_id",
   "posteam", "down", "ydstogo", "score_differential",
   "third_down_converted", "fourth_down_converted", "game_id",
   "home_team", "total_home_score", "total_away_score"]

/-- Helper `_check_cols`: succeeds when every required column is present, otherwise
errors with the section label and the sorted list of missing columns. -/
def check_cols (cols required : List String) (label : String) :
    Except (String × List String) Unit :=
  let missing := required.filter (fun c => !(cols.contains c))
  if missing.isEmpty then Except.ok ()
  else Except.error (label, missing.mergeSort (fun a b => a ≤ b))

/-- The guarded compute block of `dashboard.py` lines 570-579: the four
sections run in order and the first schema error aborts the whole run
(`st.stop`), yielding the list of completed sections on success. -/
def run_dashboard (cols : List String) : Except (String × List String) (List String) := do
  check_cols cols REQUIRED_PUNT_COLS "punts"
  check_cols cols REQUIRED_FG_COLS "field goals"
  check_cols cols REQUIRED_EPA_COLS "EPA swing"
  check_cols cols REQUIRED_SNEAK_COLS "tush push"
  Except.ok ["punts", "field goals", "EPA swing", "tush push"]

/-- Every required column except `half_seconds_remaining`: the punt section's
requirements are violated while the field-goal section's are all met. -/
def cols_missing_hsr : List String :=
  (REQUIRED_PUNT_COLS ++ REQUIRED_FG_COLS ++ REQUIRED_EPA_COLS ++
    REQUIRED_SNEAK_COLS).filter (fun c => c != "half_seconds_remaining")

/-- C9 counterexample: with only `half_seconds_remaining` missing, every
field-goal column is present, yet the whole run errors on the punt section —
the field-goal section does not proceed, contradicting the claim that
independent sections may still proceed. -/
theorem schema_error_counterexample :
    (∀ c ∈ REQUIRED_FG_COLS, c ∈ cols_missing_hsr) ∧
    run_dashboard cols_missing_hsr =
      Except.error ("punts", ["half_seconds_remaining"]) := by
  refine ⟨by decide, ?_⟩
  have hfilter :
      REQUIRED_PUNT_COLS.filter (fun c => !(cols_missing_hsr.contains c)) =
        ["half_seconds_remaining"] := by decide
  have hcheck : check_cols cols_missing_hsr REQUIRED_PUNT_COLS "punts" =
      Except.error ("punts", ["half_seconds_remaining"]) := by
    simp only [check_cols, hfilter, List.mergeSort_singleton]
    rfl
  simp only [run_dashboard, hcheck]
  rfl

/-- C9 amended: when the punt section's required columns are missing, the run
reports an explicit error carrying the section label and the non-empty list
of genuinely missing required columns, and the whole run aborts with that
error (`st.stop` halts the script), so no later section proceeds. -/
theorem schema_error_aborts (cols : List String) (l : String) (m : List String)
    (h : check_cols cols REQUIRED_PUNT_COLS "punts" = Except.error (l, m)) :
    run_dashboard cols = Except.error (l, m) ∧
    l = "punts" ∧ m ≠ [] ∧
    ∀ c ∈ m, c ∈ REQUIRED_PUNT_COLS ∧ c ∉ cols := by
  have hrun : run_dashboard cols = Except.error (l, m) := by
    simp only [run_dashboard, h]
    rfl
  simp only [check_cols] at h
  split at h
  · exact Except.noConfusion h
  · rename_i he
    injection h with h1
    rw [Prod.mk.injEq] at h1
    obtain ⟨hl, hm⟩ := h1
    subst hl
    subst hm
    refine ⟨hrun, rfl, ?_, ?_⟩
    · intro hnil
      have hlen := congrArg List.length hnil
      rw [List.length_mergeSort] at hlen
      rw [List.isEmpty_iff_length_eq_zero] at he
      simp at hlen
      exact he (by simpa using hlen)
    · intro c hc
      rw [List.mem_mergeSort, List.mem_filter] at hc
      refine ⟨hc.1, ?_⟩
      simpa using hc.2

/-- Witness for `schema_error_aborts` at the column set missing only
`half_seconds_remaining`. -/
theorem schema_error_aborts_witness :
    check_cols cols_missing_hsr REQUIRED_PUNT_COLS "punts" =
      Except.error ("punts", ["half_seconds_remaining"]) ∧
    (run_dashboard cols_missing_hsr =
        Except.error ("punts", ["half_seconds_remaining"]) ∧
      "punts" = "punts" ∧ (["half_seconds_remaining"] : List String) ≠ [] ∧
      ∀ c ∈ (["half_seconds_remaining"] : List String),
        c ∈ REQUIRED_PUNT_COLS ∧ c ∉ cols_missing_hsr) := by
  have hfilter :
      REQUIRED_PUNT_COLS.filter (fun c => !(cols_missing_hsr.contains c)) =
        ["half_seconds_remaining"] := by decide
  have hcheck : check_cols cols_missing_hsr REQUIRED_PUNT_COLS "punts" =
      Except.error ("punts", ["half_seconds_remaining"]) := by
    simp only [check_cols, hfilter, List.mergeSort_singleton]
    rfl
  exact ⟨hcheck,
    schema_error_aborts cols_missing_hsr "punts" ["half_seconds_remaining"] hcheck⟩
